import Mathlib

/-!
Shallow embedding of `src/utils/aiAnalysis.js` (hackathon-backend).

The module exports three async functions:
  * `extractTextFromPDF(pdfUrl)`  — download a PDF, write it to a scratch
    file, parse it with pdf2json, return the joined page text;
  * `extractTextFromImage(imageUrl)` — POST the url to OCR.space and return
    the first parsed result's text;
  * `generateAIAnalysis(extractedText)` — short-circuit on short text,
    otherwise POST a prompt to the Gemini endpoint and wrap the answer in
    `{ feedback }`.

External effects (HTTP calls, the filesystem, `Date.now()`,
`decodeURIComponent`) are passed in as explicit parameters; JavaScript
exceptions / promise rejections are modelled with `Except JsError`.
JavaScript strings are Lean `String`s, with `.slice`/`.length` acting on
the underlying character list.

A modelling point that matters below: in `extractTextFromPDF` the
`return new Promise(...)` sits inside the `try` block WITHOUT `await`.
In JavaScript the `try` finishes as soon as the promise object is
returned, so a later rejection of that promise (the `reject` calls in the
`pdfParser_dataError` handler and in the `catch` inside the
`pdfParser_dataReady` handler) is NOT intercepted by the surrounding
`catch`: it propagates to the caller of `extractTextFromPDF`.  Only
failures of the download (`axios.get`) and of `fs.writeFileSync`, which
happen before the promise is created, reach the `catch` and degrade to
`""`.  The embedding reflects these semantics.
-/

/-- A JavaScript exception / promise rejection value, carrying `.message`. -/
inductive JsError where
  | error (message : String)
deriving Repr, DecidableEq

/-- JS `s.slice(0, n)`: the first `n` characters of `s` (all of `s` if shorter). -/
def jsSlice (s : String) (n : Nat) : String :=
  String.mk (s.data.take n)

/-- Whitespace recognised by JS `String.prototype.trim`. -/
def isJsWhitespace (c : Char) : Bool :=
  c = ' ' || c = '\t' || c = '\n' || c = '\r' ||
  c = '\u000b' || c = '\u000c' || c = '\u00a0' || c = '\ufeff'

/-- JS `s.trim()`: strip leading and trailing whitespace. -/
def jsTrim (s : String) : String :=
  String.mk (((s.data.dropWhile isJsWhitespace).reverse.dropWhile isJsWhitespace).reverse)

/-- JS `array.map(f)` where `f` may throw: stops at the first exception. -/
def mapExcept {α β ε : Type} (f : α → Except ε β) : List α → Except ε (List β)
  | [] => Except.ok []
  | a :: as =>
    match f a with
    | Except.error e => Except.error e
    | Except.ok b =>
      match mapExcept f as with
      | Except.error e => Except.error e
      | Except.ok bs => Except.ok (b :: bs)

/-! ## pdf2json data (`pdfData.Pages[i].Texts[j].R[k].T`) -/

/-- One run of a positioned text fragment; `T` is its URI-encoded text. -/
structure PdfRun where
  T : String
deriving Repr, DecidableEq

/-- One positioned text fragment; the code reads only `R[0]`. -/
structure PdfText where
  R : List PdfRun
deriving Repr, DecidableEq

/-- One parsed page. -/
structure PdfPage where
  Texts : List PdfText
deriving Repr, DecidableEq

/-- The parsed document delivered by the `pdfParser_dataReady` event. -/
structure PdfData where
  Pages : List PdfPage
deriving Repr, DecidableEq

/-- `decodeURIComponent(t.R[0].T)`: JS `t.R[0]` is `undefined` when `R` is
empty, so reading `.T` throws a `TypeError` (which the handler's `catch`
turns into a rejection).  `dec` stands for `decodeURIComponent`. -/
def decodeFirstRun (dec : String → String) (t : PdfText) : Except JsError String :=
  match t.R with
  | [] => Except.error (JsError.error "Cannot read properties of undefined (reading T)")
  | r :: _ => Except.ok (dec r.T)

/-- The first run of a fragment (total variant, for well-formed fragments). -/
def firstRunText (t : PdfText) : String :=
  match t.R with
  | [] => ""
  | r :: _ => r.T

/-- `page.Texts.map((t) => decodeURIComponent(t.R[0].T)).join(" ")`. -/
def pageText (dec : String → String) (page : PdfPage) : Except JsError String :=
  match mapExcept (decodeFirstRun dec) page.Texts with
  | Except.error e => Except.error e
  | Except.ok frags => Except.ok (String.intercalate " " frags)

/-- The text computed by the `pdfParser_dataReady` handler:
`pdfData.Pages.map((page) => ...).join(" ")`, before `trim`. -/
def dataReadyText (dec : String → String) (pd : PdfData) : Except JsError String :=
  match mapExcept (pageText dec) pd.Pages with
  | Except.error e => Except.error e
  | Except.ok pageTexts => Except.ok (String.intercalate " " pageTexts)

/-- The scratch path `` `/tmp/pdf_${Date.now()}.pdf` ``; `ts` models `Date.now()`. -/
def tempPathOf (ts : Nat) : String :=
  "/tmp/pdf_" ++ toString ts ++ ".pdf"

/-- `extractTextFromPDF`.  The filesystem is the list of existing paths
`fs0`; `download` is the outcome of `axios.get(pdfUrl)`, `write` the
outcome of `fs.writeFileSync`, `parseOutcome` what the parser emits for
the scratch file (`pdfParser_dataError` carries `err.parserError`), and
`dec` is `decodeURIComponent`.  Result: the settled value of the returned
promise (`Except.error` = rejection reaching the caller) paired with the
filesystem afterward.  Download/write failures hit the `catch` and give
`Except.ok ""`; rejections of the inner promise escape the `try`/`catch`
because the promise is returned without `await`.  `fs.unlinkSync` runs
only on the success path, so on parse failure the scratch file stays. -/
def extractTextFromPDF (fs0 : List String) (ts : Nat)
    (download : Except JsError Unit) (write : Except JsError Unit)
    (parseOutcome : Except JsError PdfData) (dec : String → String) :
    Except JsError String × List String :=
  match download with
  | Except.error _ => (Except.ok "", fs0)
  | Except.ok _ =>
    match write with
    | Except.error _ => (Except.ok "", fs0)
    | Except.ok _ =>
      match parseOutcome with
      | Except.error e => (Except.error e, tempPathOf ts :: fs0)
      | Except.ok pd =>
        match dataReadyText dec pd with
        | Except.error e => (Except.error e, tempPathOf ts :: fs0)
        | Except.ok text =>
          (Except.ok (jsTrim text), (tempPathOf ts :: fs0).erase (tempPathOf ts))

/-! ## OCR.space (`extractTextFromImage`) -/

/-- One entry of `ParsedResults`; `ParsedText` may be absent. -/
structure OcrResult where
  ParsedText : Option String
deriving Repr, DecidableEq

/-- The OCR.space JSON body; `ParsedResults` may be absent. -/
structure OcrResponse where
  ParsedResults : Option (List OcrResult)
deriving Repr, DecidableEq

/-- `res.data.ParsedResults?.[0]?.ParsedText || ""`. -/
def parsedTextOf (r : OcrResponse) : String :=
  match r.ParsedResults with
  | none => ""
  | some rs =>
    match rs with
    | [] => ""
    | r0 :: _ =>
      match r0.ParsedText with
      | none => ""
      | some t => t

/-- The `try` body of `extractTextFromImage`: `post` is the outcome of the
`axios.post` to `https://api.ocr.space/parse/image`. -/
def extractTextFromImageBody (post : Except JsError OcrResponse) : Except JsError String :=
  match post with
  | Except.error e => Except.error e
  | Except.ok r => Except.ok (jsTrim (parsedTextOf r))

/-- `extractTextFromImage`: every failure of the body is caught and
degrades to `""`. -/
def extractTextFromImage (post : Except JsError OcrResponse) : String :=
  match extractTextFromImageBody post with
  | Except.error _ => ""
  | Except.ok t => t

/-! ## Gemini (`generateAIAnalysis`) -/

/-- `{ feedback: ... }`, the record returned by `generateAIAnalysis`. -/
structure AnalysisResult where
  feedback : String
deriving Repr, DecidableEq

/-- The `generationConfig` object of the request body. -/
structure GenerationConfig where
  temperature : ℚ
  topK : Nat
  topP : ℚ
  maxOutputTokens : Nat
deriving Repr, DecidableEq

/-- One element of `contents[i].parts`. -/
structure GeminiReqPart where
  text : String
deriving Repr, DecidableEq

/-- One element of `contents`. -/
structure GeminiReqContent where
  role : String
  parts : List GeminiReqPart
deriving Repr, DecidableEq

/-- The JSON body POSTed to the Gemini endpoint. -/
structure GeminiRequest where
  contents : List GeminiReqContent
  generationConfig : GenerationConfig
deriving Repr, DecidableEq

/-- The request body built around a prompt, with the literal
`generationConfig` of the source. -/
def geminiRequest (prompt : String) : GeminiRequest :=
  { contents := [{ role := "user", parts := [{ text := prompt }] }],
    generationConfig :=
      { temperature := 7/10, topK := 40, topP := 95/100, maxOutputTokens := 512 } }

/-- Everything of the prompt template literal before `${limitedText}`. -/
def promptIntro : String :=
  "\nYou are an AI medical assistant. Analyze this lab report and respond clearly with:\n1. Summary of findings\n2. Possible health implications\n3. Recommendations\n4. Whether the report appears normal or abnormal\nKeep the response concise (under 200 words).\n\nReport:\n"

/-- The prompt template literal: prefix, `${limitedText}`, final newline. -/
def promptFor (limitedText : String) : String :=
  promptIntro ++ limitedText ++ "\n"

/-- One element of a response candidate's `content.parts`; `text` may be absent. -/
structure GeminiRespPart where
  text : Option String
deriving Repr, DecidableEq

/-- A candidate's `content`; `parts` may be absent. -/
structure GeminiRespContent where
  parts : Option (List GeminiRespPart)
deriving Repr, DecidableEq

/-- One element of `candidates`; `content` may be absent. -/
structure GeminiCandidate where
  content : Option GeminiRespContent
deriving Repr, DecidableEq

/-- The Gemini JSON body; `candidates` may be absent. -/
structure GeminiResponse where
  candidates : Option (List GeminiCandidate)
deriving Repr, DecidableEq

/-- The optional chain `response.data?.candidates?.[0]?.content?.parts?.[0]?.text`. -/
def firstCandidateText (r : GeminiResponse) : Option String :=
  match r.candidates with
  | none => none
  | some cs =>
    match cs with
    | [] => none
    | c :: _ =>
      match c.content with
      | none => none
      | some content =>
        match content.parts with
        | none => none
        | some ps =>
          match ps with
          | [] => none
          | p :: _ => p.text

/-- `"⚠ Gemini returned no output."` -/
def noOutputMsg : String := "⚠ Gemini returned no output."

/-- `"⚠ No readable text found in report."` -/
def warningMsg : String := "⚠ No readable text found in report."

/-- `"⚠ AI analysis failed or took too long. Please try again later."` -/
def fallbackMsg : String := "⚠ AI analysis failed or took too long. Please try again later."

/-- `...?.text || "⚠ Gemini returned no output."` (JS `||`: an absent AND an
empty text both fall back). -/
def aiTextOf (r : GeminiResponse) : String :=
  match firstCandidateText r with
  | none => noOutputMsg
  | some t => if t = "" then noOutputMsg else t

/-- `if (!GEMINI_API_KEY)`: the key is falsy when unset or empty. -/
def keyMissing : Option String → Bool
  | none => true
  | some k => k = ""

/-- The `try` body of `generateAIAnalysis`.  `apiKey` models the
module-level `GEMINI_API_KEY` (`none` = unset env var), `extractedText`
the argument (`none` = `undefined`), and `net` the outcome of
`axios.post` on a given request body (a timeout is an `Except.error`).
Besides the body's outcome it returns the list of requests POSTed, so
that "no remote call" is part of the model. -/
def generateAIAnalysisBody (apiKey : Option String) (extractedText : Option String)
    (net : GeminiRequest → Except JsError GeminiResponse) :
    Except JsError AnalysisResult × List GeminiRequest :=
  if keyMissing apiKey then
    (Except.error (JsError.error "Gemini API key missing."), [])
  else
    match extractedText with
    | none => (Except.ok { feedback := warningMsg }, [])
    | some t =>
      if t = "" || t.length < 30 then
        (Except.ok { feedback := warningMsg }, [])
      else
        let limitedText := jsSlice t 3000
        let req := geminiRequest (promptFor limitedText)
        match net req with
        | Except.error e => (Except.error e, [req])
        | Except.ok resp => (Except.ok { feedback := aiTextOf resp }, [req])

/-- `generateAIAnalysis`: the `catch` turns every thrown error into the
fixed fallback record, so the function itself never rejects. -/
def generateAIAnalysis (apiKey : Option String) (extractedText : Option String)
    (net : GeminiRequest → Except JsError GeminiResponse) :
    AnalysisResult × List GeminiRequest :=
  match generateAIAnalysisBody apiKey extractedText net with
  | (Except.ok r, reqs) => (r, reqs)
  | (Except.error _, reqs) => ({ feedback := fallbackMsg }, reqs)

/-! ## Concrete inputs used by closed instances -/

/-- A network stub whose response has no `candidates`. -/
def netNoOutput : GeminiRequest → Except JsError GeminiResponse :=
  fun _ => Except.ok { candidates := none }

/-- A 3005-character input (over the 3000-character truncation bound). -/
def bigText : String := String.mk (List.replicate 3005 'a')

/-- A 30-character input (the shortest that is not short-circuited). -/
def mediumText : String := String.mk (List.replicate 30 'b')

/-- The spec's example input: 29 `'a'` characters. -/
def shortText : String := String.mk (List.replicate 29 'a')

/-- A two-page parsed document with three well-formed fragments. -/
def pdfSample : PdfData :=
  { Pages := [ { Texts := [ { R := [{ T := "Hello" }] }, { R := [{ T := "World" }] } ] },
               { Texts := [ { R := [{ T := "Again" }] } ] } ] }

/-! ## Helper lemmas -/

/-- If `f` succeeds as `g` on every element, `mapExcept f` is `map g`. -/
theorem mapExcept_ok {α β ε : Type} (f : α → Except ε β) (g : α → β) (l : List α)
    (h : ∀ a ∈ l, f a = Except.ok (g a)) :
    mapExcept f l = Except.ok (l.map g) := by
  induction l with
  | nil => rfl
  | cons a as ih =>
    have ha := h a (List.mem_cons_self a as)
    have has : ∀ x ∈ as, f x = Except.ok (g x) :=
      fun x hx => h x (List.mem_cons_of_mem a hx)
    simp only [mapExcept, List.map, ha, ih has]

/-! ## Claims about `extractTextFromPDF` -/

/-- C2 counterexample: the claim "extractTextFromPDF never propagates a
failure (its result is never a rejection)" is false at a concrete input:
with the download and the write succeeding and the parser emitting
`pdfParser_dataError`, the function's promise rejects with the parser
error, and the scratch file is left behind. -/
theorem extractTextFromPDF_rejects_on_parse_failure_cx :
    extractTextFromPDF ["keep.txt"] 7 (Except.ok ()) (Except.ok ())
        (Except.error (JsError.error "bad XRef entry")) (fun s => s) =
      (Except.error (JsError.error "bad XRef entry"), ["/tmp/pdf_7.pdf", "keep.txt"]) := by
  rfl

/-- C2 (amended): failures of the download or of the scratch-file write are
caught and degrade to `Except.ok ""` with the filesystem untouched, but a
parse failure (the `pdfParser_dataError` event) rejects the promise
returned to the caller, because the promise is returned from the `try`
without `await`. -/
theorem extractTextFromPDF_error_behavior :
    (∀ (fs0 : List String) (ts : Nat) (w : Except JsError Unit)
        (p : Except JsError PdfData) (dec : String → String) (e : JsError),
        extractTextFromPDF fs0 ts (Except.error e) w p dec = (Except.ok "", fs0)) ∧
    (∀ (fs0 : List String) (ts : Nat) (p : Except JsError PdfData)
        (dec : String → String) (e : JsError),
        extractTextFromPDF fs0 ts (Except.ok ()) (Except.error e) p dec = (Except.ok "", fs0)) ∧
    (∀ (fs0 : List String) (ts : Nat) (dec : String → String) (e : JsError),
        (extractTextFromPDF fs0 ts (Except.ok ()) (Except.ok ()) (Except.error e) dec).1 =
          Except.error e) :=
  ⟨fun _ _ _ _ _ _ => rfl, fun _ _ _ _ _ => rfl, fun _ _ _ _ => rfl⟩

/-- C1 counterexample: the claim "the only condition raised to the caller
across the three operations is a missing generator credential" is false at
a concrete input: a PDF parse failure — not a credential condition — is
raised to the caller of `extractTextFromPDF`. -/
theorem pdf_internal_parse_error_raises_cx :
    (extractTextFromPDF [] 0 (Except.ok ()) (Except.ok ())
        (Except.error (JsError.error "An error occurred while parsing the PDF."))
        (fun s => s)).1 =
      Except.error (JsError.error "An error occurred while parsing the PDF.") := by
  rfl

/-- C1 (amended): a missing generator credential is never raised to the
caller — `generateAIAnalysis` catches its own credential throw and returns
the fixed fallback record — and `extractTextFromImage` degrades every
failure to `""`; the only raised conditions are `extractTextFromPDF` parse
failures: if its result is a rejection, the download and write succeeded
and either the parser emitted `pdfParser_dataError` or the `dataReady`
handler itself threw. -/
theorem only_pdf_parse_phase_raises :
    (∀ (t : Option String) (net : GeminiRequest → Except JsError GeminiResponse),
        generateAIAnalysis none t net = ({ feedback := fallbackMsg }, [])) ∧
    (∀ e : JsError, extractTextFromImage (Except.error e) = "") ∧
    (∀ (fs0 : List String) (ts : Nat) (d w : Except JsError Unit)
        (p : Except JsError PdfData) (dec : String → String) (e : JsError),
        (extractTextFromPDF fs0 ts d w p dec).1 = Except.error e →
          d = Except.ok () ∧ w = Except.ok () ∧
          (p = Except.error e ∨
            ∃ pd, p = Except.ok pd ∧ dataReadyText dec pd = Except.error e)) := by
  refine ⟨?_, ?_, ?_⟩
  · intro t net
    simp [generateAIAnalysis, generateAIAnalysisBody, keyMissing]
  · intro e
    rfl
  · intro fs0 ts d w p dec e h
    cases d with
    | error e' => simp [extractTextFromPDF] at h
    | ok u =>
      cases u
      cases w with
      | error e' => simp [extractTextFromPDF] at h
      | ok u' =>
        cases u'
        refine ⟨rfl, rfl, ?_⟩
        cases p with
        | error e' =>
          left
          simp only [extractTextFromPDF] at h
          rw [Except.error.injEq] at h
          rw [h]
        | ok pd =>
          right
          refine ⟨pd, rfl, ?_⟩
          cases hdt : dataReadyText dec pd with
          | error e' =>
            simp only [extractTextFromPDF, hdt] at h
            rw [Except.error.injEq] at h
            rw [h]
          | ok text =>
            simp [extractTextFromPDF, hdt] at h

/-- C1 witness: the amended characterisation applied at a concrete
rejected run (well-formed download and write, parser error). -/
theorem only_pdf_parse_phase_raises_witness :
    (Except.ok () : Except JsError Unit) = Except.ok () ∧
    (Except.ok () : Except JsError Unit) = Except.ok () ∧
    ((Except.error (JsError.error "parse failed") : Except JsError PdfData) =
        Except.error (JsError.error "parse failed") ∨
      ∃ pd, (Except.error (JsError.error "parse failed") : Except JsError PdfData) =
          Except.ok pd ∧
        dataReadyText (fun s => s) pd = Except.error (JsError.error "parse failed")) :=
  only_pdf_parse_phase_raises.2.2 [] 0 (Except.ok ()) (Except.ok ())
    (Except.error (JsError.error "parse failed")) (fun s => s)
    (JsError.error "parse failed") rfl

/-- C7: when the download fails, `extractTextFromPDF` returns the empty
string and the scratch path is absent from the filesystem afterward (it
was never created: `fs.writeFileSync` is not reached). -/
theorem extractTextFromPDF_download_failure_clean
    (fs0 : List String) (ts : Nat) (w : Except JsError Unit)
    (p : Except JsError PdfData) (dec : String → String) (e : JsError)
    (h : tempPathOf ts ∉ fs0) :
    (extractTextFromPDF fs0 ts (Except.error e) w p dec).1 = Except.ok "" ∧
    (extractTextFromPDF fs0 ts (Except.error e) w p dec).2 = fs0 ∧
    tempPathOf ts ∉ (extractTextFromPDF fs0 ts (Except.error e) w p dec).2 :=
  ⟨rfl, rfl, h⟩

/-- C7 witness: a concrete unreachable URL (DNS failure) on an empty
filesystem. -/
theorem extractTextFromPDF_download_failure_clean_witness :
    (extractTextFromPDF [] 3 (Except.error (JsError.error "getaddrinfo ENOTFOUND"))
        (Except.ok ()) (Except.ok { Pages := [] }) (fun s => s)).1 = Except.ok "" ∧
    (extractTextFromPDF [] 3 (Except.error (JsError.error "getaddrinfo ENOTFOUND"))
        (Except.ok ()) (Except.ok { Pages := [] }) (fun s => s)).2 = [] ∧
    tempPathOf 3 ∉
      (extractTextFromPDF [] 3 (Except.error (JsError.error "getaddrinfo ENOTFOUND"))
        (Except.ok ()) (Except.ok { Pages := [] }) (fun s => s)).2 :=
  extractTextFromPDF_download_failure_clean [] 3 (Except.ok ())
    (Except.ok { Pages := [] }) (fun s => s) (JsError.error "getaddrinfo ENOTFOUND")
    (by simp)

/-- C8: on a successfully parsed document whose fragments are all
well-formed (each has a first run), `extractTextFromPDF` resolves with the
fragment texts joined by single spaces within each page, the page texts
joined by single spaces, and the whole trimmed. -/
theorem extractTextFromPDF_success_concatenation
    (fs0 : List String) (ts : Nat) (dec : String → String) (pd : PdfData)
    (h : ∀ page ∈ pd.Pages, ∀ t ∈ page.Texts, t.R ≠ []) :
    (extractTextFromPDF fs0 ts (Except.ok ()) (Except.ok ()) (Except.ok pd) dec).1 =
      Except.ok (jsTrim (String.intercalate " " (pd.Pages.map (fun page =>
        String.intercalate " " (page.Texts.map (fun t => dec (firstRunText t))))))) := by
  have hd : dataReadyText dec pd =
      Except.ok (String.intercalate " " (pd.Pages.map (fun page =>
        String.intercalate " " (page.Texts.map (fun t => dec (firstRunText t)))))) := by
    unfold dataReadyText
    rw [mapExcept_ok (pageText dec)
      (fun page => String.intercalate " " (page.Texts.map (fun t => dec (firstRunText t))))
      pd.Pages]
    intro page hp
    unfold pageText
    rw [mapExcept_ok (decodeFirstRun dec) (fun t => dec (firstRunText t)) page.Texts]
    intro t ht
    have hne := h page hp t ht
    unfold decodeFirstRun firstRunText
    cases hr : t.R with
    | nil => exact absurd hr hne
    | cons r rs => rfl
  simp only [extractTextFromPDF, hd]

/-- C8 witness: a concrete two-page document; the result is the trimmed
space-joined fragment text. -/
theorem extractTextFromPDF_success_concatenation_witness :
    (extractTextFromPDF [] 5 (Except.ok ()) (Except.ok ()) (Except.ok pdfSample)
        (fun s => s)).1 =
      Except.ok "Hello World Again" :=
  (extractTextFromPDF_success_concatenation [] 5 (fun s => s) pdfSample
    (by decide)).trans (by rfl)

/-! ## Claims about `generateAIAnalysis` -/

/-- C3: with the credential present, for missing text or text shorter than
30 characters (the empty string included) `generateAIAnalysis` returns the
fixed warning record and POSTs no request. -/
theorem generateAIAnalysis_short_text_warning
    (k : Option String) (t : Option String)
    (net : GeminiRequest → Except JsError GeminiResponse)
    (hk : keyMissing k = false)
    (ht : t = none ∨ ∃ s, t = some s ∧ s.length < 30) :
    generateAIAnalysis k t net = ({ feedback := warningMsg }, []) := by
  rcases ht with h | ⟨s, rfl, hs⟩
  · subst h
    simp [generateAIAnalysis, generateAIAnalysisBody, hk]
  · simp [generateAIAnalysis, generateAIAnalysisBody, hk, hs]

/-- C3 witness: the spec's example, 29 `'a'` characters, with a key set. -/
theorem generateAIAnalysis_short_text_warning_witness :
    generateAIAnalysis (some "AIzaTestKey") (some shortText) netNoOutput =
      ({ feedback := warningMsg }, []) :=
  generateAIAnalysis_short_text_warning (some "AIzaTestKey") (some shortText) netNoOutput
    rfl (Or.inr ⟨shortText, rfl, by decide⟩)

/-- C4: with the credential present and input of length at least 3000, the
single request POSTed embeds exactly the first 3000 characters of the
input in the prompt: the embedded slice has length 3000 and is a prefix of
the input (appending the remainder recovers the input). -/
theorem generateAIAnalysis_truncates_to_3000
    (k : Option String) (t : String)
    (net : GeminiRequest → Except JsError GeminiResponse)
    (hk : keyMissing k = false) (ht : 3000 ≤ t.length) :
    (generateAIAnalysis k (some t) net).2 =
      [geminiRequest (promptIntro ++ String.mk (t.data.take 3000) ++ "\n")] ∧
    (String.mk (t.data.take 3000)).length = 3000 ∧
    String.mk (t.data.take 3000) ++ String.mk (t.data.drop 3000) = t := by
  have hne : t ≠ "" := by
    intro h
    rw [h] at ht
    exact absurd ht (by decide)
  have hlen : ¬ t.length < 30 := by omega
  refine ⟨?_, ?_, ?_⟩
  · have hpf : promptIntro ++ String.mk (t.data.take 3000) ++ "\n" =
        promptFor (jsSlice t 3000) := rfl
    rw [hpf]
    cases hnet : net (geminiRequest (promptFor (jsSlice t 3000))) with
    | error e =>
      simp [generateAIAnalysis, generateAIAnalysisBody, hk, hne, hlen, hnet]
    | ok resp =>
      simp [generateAIAnalysis, generateAIAnalysisBody, hk, hne, hlen, hnet]
  · have : (t.data.take 3000).length = 3000 := by
      rw [List.length_take]
      have h3 : t.length = t.data.length := rfl
      omega
    exact this
  · exact congrArg String.mk (List.take_append_drop 3000 t.data)

/-- C4 witness: a 3005-character input; the request embeds its first 3000
characters. -/
theorem generateAIAnalysis_truncates_to_3000_witness :
    (generateAIAnalysis (some "AIzaTestKey") (some bigText) netNoOutput).2 =
      [geminiRequest (promptIntro ++ String.mk (bigText.data.take 3000) ++ "\n")] ∧
    (String.mk (bigText.data.take 3000)).length = 3000 ∧
    String.mk (bigText.data.take 3000) ++ String.mk (bigText.data.drop 3000) = bigText :=
  generateAIAnalysis_truncates_to_3000 (some "AIzaTestKey") bigText netNoOutput
    rfl
    (by
      have h : bigText.length = 3005 := List.length_replicate 3005 'a'
      omega)

/-- C5: with `GEMINI_API_KEY` unset (or empty, also falsy), the `try` body
throws `"Gemini API key missing."`, the `catch` swallows it, and
`generateAIAnalysis` returns the fixed fallback record — no uncaught
exception escapes, and no request is POSTed. -/
theorem generateAIAnalysis_missing_key_fallback
    (k : Option String) (t : Option String)
    (net : GeminiRequest → Except JsError GeminiResponse)
    (hk : keyMissing k = true) :
    generateAIAnalysisBody k t net =
      (Except.error (JsError.error "Gemini API key missing."), []) ∧
    generateAIAnalysis k t net = ({ feedback := fallbackMsg }, []) := by
  constructor
  · simp [generateAIAnalysisBody, hk]
  · simp [generateAIAnalysis, generateAIAnalysisBody, hk]

/-- C5 witness: unset key with a long-enough concrete text. -/
theorem generateAIAnalysis_missing_key_fallback_witness :
    generateAIAnalysisBody none (some "hemoglobin 13.5 g/dL, WBC 6.2, platelets 250") netNoOutput =
      (Except.error (JsError.error "Gemini API key missing."), []) ∧
    generateAIAnalysis none (some "hemoglobin 13.5 g/dL, WBC 6.2, platelets 250") netNoOutput =
      ({ feedback := fallbackMsg }, []) :=
  generateAIAnalysis_missing_key_fallback none
    (some "hemoglobin 13.5 g/dL, WBC 6.2, platelets 250") netNoOutput rfl

/-- C6: with the credential present, text long enough, and a successful
POST whose response yields nothing along
`candidates?.[0]?.content?.parts?.[0]?.text`, the result's `feedback` is
the fixed "no output" text — no exception is raised. -/
theorem generateAIAnalysis_no_candidates_no_output
    (k : Option String) (t : String)
    (net : GeminiRequest → Except JsError GeminiResponse) (resp : GeminiResponse)
    (hk : keyMissing k = false) (ht : 30 ≤ t.length)
    (hnet : net (geminiRequest (promptFor (jsSlice t 3000))) = Except.ok resp)
    (hresp : firstCandidateText resp = none) :
    (generateAIAnalysis k (some t) net).1 = { feedback := noOutputMsg } := by
  have hne : t ≠ "" := by
    intro h
    rw [h] at ht
    exact absurd ht (by decide)
  have hlen : ¬ t.length < 30 := by omega
  simp [generateAIAnalysis, generateAIAnalysisBody, hk, hne, hlen, hnet,
    aiTextOf, hresp]

/-- C6 witness: a 30-character text and a stub network returning a
response with no `candidates`. -/
theorem generateAIAnalysis_no_candidates_no_output_witness :
    (generateAIAnalysis (some "AIzaTestKey") (some mediumText) netNoOutput).1 =
      { feedback := noOutputMsg } :=
  generateAIAnalysis_no_candidates_no_output (some "AIzaTestKey") mediumText netNoOutput
    { candidates := none } rfl (by decide) rfl rfl

/-- C9: on every path — short-circuit, success, no-output substitution,
thrown credential error, network failure — `generateAIAnalysis` returns a
record whose single `feedback` field is present and holds a string. -/
theorem generateAIAnalysis_always_feedback
    (k : Option String) (t : Option String)
    (net : GeminiRequest → Except JsError GeminiResponse) :
    ∃ s : String, (generateAIAnalysis k t net).1 = { feedback := s } := by
  unfold generateAIAnalysis
  rcases hb : generateAIAnalysisBody k t net with ⟨r, reqs⟩
  cases r with
  | ok a => exact ⟨a.feedback, rfl⟩
  | error e => exact ⟨fallbackMsg, rfl⟩

/-- C10: the credential check precedes the short-text check: with the key
absent and the text short (or missing), the result is the fallback record,
not the short-text warning. -/
theorem generateAIAnalysis_key_check_precedes_short_text
    (k : Option String) (t : Option String)
    (net : GeminiRequest → Except JsError GeminiResponse)
    (hk : keyMissing k = true)
    (ht : t = none ∨ ∃ s, t = some s ∧ s.length < 30) :
    (generateAIAnalysis k t net).1 = { feedback := fallbackMsg } ∧
    (generateAIAnalysis k t net).1 ≠ { feedback := warningMsg } := by
  have h1 : (generateAIAnalysis k t net).1 = { feedback := fallbackMsg } := by
    simp [generateAIAnalysis, generateAIAnalysisBody, hk]
  refine ⟨h1, ?_⟩
  rw [h1]
  intro hcontra
  have := congrArg AnalysisResult.feedback hcontra
  simp [fallbackMsg, warningMsg] at this

/-- C10 witness: unset key and the empty string. -/
theorem generateAIAnalysis_key_check_precedes_short_text_witness :
    (generateAIAnalysis none (some "") netNoOutput).1 = { feedback := fallbackMsg } ∧
    (generateAIAnalysis none (some "") netNoOutput).1 ≠ { feedback := warningMsg } :=
  generateAIAnalysis_key_check_precedes_short_text none (some "") netNoOutput rfl
    (Or.inr ⟨"", rfl, by decide⟩)
